import Mathlib

/-!
Shallow embedding of `src/WidgetSDKInstance.js` (moysklad/js-widget-sdk).

The SDK instance is modelled as a pure state record `SDKState`; every
operation returns the new state together with a trace of observable
effects (`Effect`): promise settlements, transport send attempts,
listener invocations, console output, and bookkeeping markers that
mirror the statement order of the JavaScript source (pending-table
registration/removal/clearing, listener clearing, handler
attach/detach, message-id allocation).

JavaScript specifics kept faithfully:
  - id-like fields are `JsId` (undefined / null / number), since the
    source distinguishes `undefined`, `null` and numeric values and
    uses truthiness (`x || null`) in the implicit-id fallback;
  - `Map` objects (`_pendingRequests`, `_listeners`) are association
    lists with `Map.set`/`Map.delete` semantics (unique keys in all
    reachable states);
  - promise `resolve`/`reject` become `settleResolve`/`settleReject`
    effects keyed by the `messageId` of the pending request;
  - `postMessage` is external: each call site takes the transport
    synchronous outcome (`Option JsError`; `some e` models a throw);
  - listener callbacks are identifiers interpreted by an environment
    `CbEnv`; a callback either returns or throws an error text
    (`Except String Unit`), mirroring the `try/catch` in dispatch;
  - `console.log` text produced from `JSON.stringify` is abstracted to
    a fixed placeholder; warning texts are kept verbatim.
-/

/-- A JavaScript id-like value: `undefined`, `null`, or a number. -/
inductive JsId where
  | undef : JsId
  | null : JsId
  | num : Int → JsId
deriving DecidableEq, Repr

/-- One entry of the `errors` array of an error reply: `{ error: <text> }`
(the `error` field may be absent or empty). -/
structure ErrEntry where
  error : Option String
deriving DecidableEq, Repr

/-- A structured message exchanged over the channel.  `none`/`JsId.undef`
model an absent field; `extra` stands for arbitrary further payload
fields so that "the full inbound message" is meaningful. -/
structure Message where
  name : Option String := none
  messageId : JsId := JsId.undef
  correlationId : JsId := JsId.undef
  errors : Option (List ErrEntry) := none
  openMessageId : JsId := JsId.undef
  valid : Option Bool := none
  message : Option String := none
  extra : List (String × String) := []
deriving DecidableEq, Repr

/-- A JavaScript `Error` object as produced by the SDK (`_toError`, the
destroy rejection, or a transport failure). -/
structure JsError where
  name : String
  message : String
  details : Option (List ErrEntry) := none
  rawMessage : Option Message := none
deriving DecidableEq, Repr

/-- Observable effects of an SDK operation, in program order. -/
inductive Effect where
  | logInfo : String → Effect
  | warn : String → Effect
  | errorLog : String → Effect
  | attach : Effect
  | detach : Effect
  | alloc : Int → Effect
  | register : Int → Effect
  | removePending : Int → Effect
  | clearListeners : Effect
  | clearPending : Effect
  | sendAttempt : Message → Effect
  | settleResolve : Int → Message → Effect
  | settleReject : Int → JsError → Effect
  | invoke : Nat → Message → Effect
deriving DecidableEq, Repr

/-- The per-instance session state (`WidgetSDKInstance` fields). -/
structure SDKState where
  debug : Bool
  requestIdCounter : Int
  pendingRequests : List Int
  listeners : List (String × List Nat)
  lastOpenMessageId : JsId
  lastChangeMessageId : JsId
  attached : Bool
deriving DecidableEq, Repr

/-- Interpretation of listener callbacks: a callback either returns
normally or throws an error with the given message text. -/
def CbEnv : Type := Nat → Message → Except String Unit

/-- Capabilities of the surrounding global object. -/
structure GlobalEnv where
  hasAddEventListener : Bool
  hasRemoveEventListener : Bool
deriving DecidableEq, Repr

/-- The `event.data` of an inbound `message` event: either not a structured
object (dropped with a diagnostic) or a structured message. -/
inductive Inbound where
  | notObject : Inbound
  | msg : Message → Inbound
deriving DecidableEq, Repr

/-- The constructor: initialize fields, then bind the message handler;
if `addEventListener` is unavailable, log an error and return early
without attaching (lines 133-151). -/
def createInstance (g : GlobalEnv) (debug : Bool) : SDKState × List Effect :=
  let st : SDKState :=
    { debug := debug
      requestIdCounter := 0
      pendingRequests := []
      listeners := []
      lastOpenMessageId := JsId.null
      lastChangeMessageId := JsId.null
      attached := false }
  if g.hasAddEventListener then
    ({ st with attached := true }, [Effect.attach])
  else
    (st, [Effect.errorLog "addEventListener is not available"])

/-- The `Map.get` on the listener registry. -/
def assocGet (l : List (String × List Nat)) (k : String) : Option (List Nat) :=
  match l with
  | [] => none
  | (k', v) :: rest => if k' = k then some v else assocGet rest k

/-- The `Map.set` on the listener registry (replace in place, append if new). -/
def assocSet (l : List (String × List Nat)) (k : String) (v : List Nat) :
    List (String × List Nat) :=
  match l with
  | [] => [(k, v)]
  | (k', v') :: rest =>
      if k' = k then (k, v) :: rest else (k', v') :: assocSet rest k v

/-- The `Map.set` on the pending table, keys only (value is the settlement
handle, identified here by the key itself). -/
def mapSetKey (pend : List Int) (k : Int) : List Int :=
  if k ∈ pend then pend else pend ++ [k]

/-- The `Map.delete` on the pending table. -/
def mapDeleteKey (pend : List Int) (k : Int) : List Int :=
  pend.filter (fun x => decide (x ≠ k))

/-- The `_toError` (lines 236-247): normalize a host error reply. -/
def toError (m : Message) : JsError :=
  let errText : String :=
    match m.errors with
    | some (e :: _) =>
        match e.error with
        | some s => if s = "" then "Unknown error" else s
        | none => "Unknown error"
    | _ => "Unknown error"
  { name :=
      match m.name with
      | some s => if s = "" then "InvalidMessageError" else s
      | none => "InvalidMessageError"
    message := errText
    details := m.errors
    rawMessage := some m }

/-- The `listeners.forEach` loop of `_handleMessage` (lines 221-227):
invoke each callback with the message; a throw is caught and logged as
a warning, and the loop continues. -/
def runListeners (env : CbEnv) (eventName : String) (cbs : List Nat) (m : Message) :
    List Effect :=
  cbs.flatMap (fun c =>
    match env c m with
    | Except.ok _ => [Effect.invoke c m]
    | Except.error s =>
        [Effect.invoke c m,
         Effect.warn ("Listener error for " ++ eventName ++ ": " ++ s)])

/-- The non-correlated tail of `_handleMessage` (lines 212-228): record
last Open/Change ids, then dispatch to listeners when the name is
truthy and registered. -/
def handleEventPath (env : CbEnv) (st : SDKState) (m : Message) (hdr : List Effect) :
    SDKState × List Effect :=
  let st1 :=
    if m.name = some "Open" then { st with lastOpenMessageId := m.messageId }
    else if m.name = some "Change" then { st with lastChangeMessageId := m.messageId }
    else st
  let evEff : List Effect :=
    match m.name with
    | some n =>
        if n = "" then []
        else
          match assocGet st1.listeners n with
          | some cbs => runListeners env n cbs m
          | none => []
    | none => []
  (st1, hdr ++ evEff)

/-- The `_handleMessage` (lines 188-229): drop non-objects; a message whose
`correlationId` is a pending key is removed from the table and settled
(reject on `InvalidMessageError`, resolve otherwise) and nothing else
happens to it; any other message updates the last Open/Change id and is
dispatched to listeners. -/
def handleMessage (env : CbEnv) (st : SDKState) : Inbound → SDKState × List Effect
  | Inbound.notObject =>
      (st, if st.debug then [Effect.logInfo "Unknown event message"] else [])
  | Inbound.msg m =>
      let hdr : List Effect :=
        if st.debug then [Effect.logInfo "Host -> message"] else []
      match m.correlationId with
      | JsId.num k =>
          if k ∈ st.pendingRequests then
            ({ st with pendingRequests := mapDeleteKey st.pendingRequests k },
             hdr ++ [Effect.removePending k,
               if m.name = some "InvalidMessageError" then
                 Effect.settleReject k (toError m)
               else
                 Effect.settleResolve k m])
          else
            handleEventPath env st m hdr
      | _ => handleEventPath env st m hdr

/-- The environment delivers inbound events to `_handleMessage` only
while the handler is attached via `addEventListener`. -/
def deliver (env : CbEnv) (st : SDKState) (data : Inbound) : SDKState × List Effect :=
  if st.attached then handleMessage env st data else (st, [])

/-- Fallback text for `message.name` used in transport-failure warnings. -/
def nameOrUnknown (m : Message) : String :=
  match m.name with
  | some s => if s = "" then "unknown" else s
  | none => "unknown"

/-- The `message.messageId = messageId` stamping in `sendRequest`. -/
def stampMessage (m : Message) (mid : Int) : Message :=
  { m with messageId := JsId.num mid }

/-- Result of a `sendRequest` call: the promise is outstanding under the
allocated id, or was rejected synchronously with the transport error. -/
inductive ReqOutcome where
  | outstanding : Int → ReqOutcome
  | rejected : Int → JsError → ReqOutcome
deriving DecidableEq, Repr

/-- The `sendRequest` (lines 323-344): allocate an id, stamp the message,
register the pending entry, then attempt the transport send (`trr` is
its synchronous outcome); on a throw, warn, delete the entry, and
reject with the transport error. -/
def sendRequest (trr : Option JsError) (st : SDKState) (m : Message) :
    SDKState × List Effect × ReqOutcome :=
  let mid := st.requestIdCounter + 1
  let st0 := { st with requestIdCounter := mid }
  let m' := stampMessage m mid
  let hdr : List Effect :=
    Effect.alloc mid ::
      (if st.debug then [Effect.logInfo "SDK -> message"] else [])
  let st1 := { st0 with pendingRequests := mapSetKey st0.pendingRequests mid }
  match trr with
  | none =>
      (st1, hdr ++ [Effect.register mid, Effect.sendAttempt m'],
       ReqOutcome.outstanding mid)
  | some e =>
      ({ st1 with pendingRequests := mapDeleteKey st1.pendingRequests mid },
       hdr ++ [Effect.register mid, Effect.sendAttempt m',
         Effect.warn ("postMessage error for " ++ nameOrUnknown m' ++ ": " ++ e.message),
         Effect.removePending mid],
       ReqOutcome.rejected mid e)

/-- The `sendMessage` (lines 351-361): fire-and-forget; a transport throw is
caught and logged, never propagated. -/
def sendMessage (trr : Option JsError) (st : SDKState) (m : Message) : List Effect :=
  (if st.debug then [Effect.logInfo "SDK -> message"] else []) ++
  (match trr with
   | none => [Effect.sendAttempt m]
   | some e =>
       [Effect.sendAttempt m,
        Effect.warn ("postMessage error for " ++ nameOrUnknown m ++ ": " ++ e.message)])

/-- The `on` (lines 255-265; `on` is a reserved word in Lean, hence
`onEvent`): append the callback unless already registered. -/
def onEvent (st : SDKState) (eventName : String) (cb : Nat) : SDKState :=
  let ls := (assocGet st.listeners eventName).getD []
  if cb ∈ ls then st
  else { st with listeners := assocSet st.listeners eventName (ls ++ [cb]) }

/-- The `off` (lines 309-316): splice out the first matching callback. -/
def offEvent (st : SDKState) (eventName : String) (cb : Nat) : SDKState :=
  let ls := (assocGet st.listeners eventName).getD []
  if cb ∈ ls then
    { st with listeners := assocSet st.listeners eventName (ls.erase cb) }
  else st

/-- The `x || null` applied to a stored last-message id (JS truthiness:
`undefined`, `null` and `0` are falsy). -/
def orNull (x : JsId) : JsId :=
  match x with
  | JsId.num n => if n = 0 then JsId.null else JsId.num n
  | _ => JsId.null

/-- The `_getOpenMessageId` (lines 547-553). -/
def getOpenMessageId (st : SDKState) (openMessageId : JsId) : JsId :=
  if openMessageId ≠ JsId.undef ∧ openMessageId ≠ JsId.null then openMessageId
  else orNull st.lastOpenMessageId

/-- The `_getChangeMessageId` (lines 560-566). -/
def getChangeMessageId (st : SDKState) (changeMessageId : JsId) : JsId :=
  if changeMessageId ≠ JsId.undef ∧ changeMessageId ≠ JsId.null then changeMessageId
  else orNull st.lastChangeMessageId

/-- The `openFeedback` (lines 417-431). -/
def openFeedback (trr : Option JsError) (st : SDKState) (openMessageId : JsId) :
    SDKState × List Effect × Option Message :=
  match getOpenMessageId st openMessageId with
  | JsId.null =>
      (st, [Effect.warn "OpenFeedback not sent: openMessageId is missing"], none)
  | resolved =>
      let m : Message := { name := some "OpenFeedback", correlationId := resolved }
      (st, sendMessage trr st m, some m)

/-- The `setDirty` (lines 439-455). -/
def setDirty (trr : Option JsError) (st : SDKState) (openMessageId : JsId) :
    SDKState × List Effect × Option Message :=
  match getOpenMessageId st openMessageId with
  | JsId.null =>
      (st, [Effect.warn "SetDirty not sent: openMessageId is missing"], none)
  | resolved =>
      let mid := st.requestIdCounter + 1
      let st1 := { st with requestIdCounter := mid }
      let m : Message :=
        { name := some "SetDirty", messageId := JsId.num mid, openMessageId := resolved }
      (st1, Effect.alloc mid :: sendMessage trr st1 m, some m)

/-- The `clearDirty` (lines 461-470). -/
def clearDirty (trr : Option JsError) (st : SDKState) :
    SDKState × List Effect × Message :=
  let mid := st.requestIdCounter + 1
  let st1 := { st with requestIdCounter := mid }
  let m : Message := { name := some "ClearDirty", messageId := JsId.num mid }
  (st1, Effect.alloc mid :: sendMessage trr st1 m, m)

/-- The `validationFeedback` (lines 480-504). -/
def validationFeedback (trr : Option JsError) (st : SDKState) (valid : Option Bool)
    (messageText : Option String) (changeMessageId : JsId) :
    SDKState × List Effect × Option Message :=
  match getChangeMessageId st changeMessageId with
  | JsId.null =>
      (st, [Effect.warn "ValidationFeedback not sent: changeMessageId is missing"], none)
  | resolved =>
      let mid := st.requestIdCounter + 1
      let st1 := { st with requestIdCounter := mid }
      let m : Message :=
        { name := some "ValidationFeedback"
          messageId := JsId.num mid
          correlationId := resolved
          valid := some (match valid with | none => false | some b => b)
          message := some (match messageText with | some s => s | none => "Invalid data") }
      (st1, Effect.alloc mid :: sendMessage trr st1 m, some m)

/-- The `closePopup` (lines 527-540). -/
def closePopup (trr : Option JsError) (st : SDKState) (popupResponse : Option String) :
    SDKState × List Effect × Message :=
  let mid := st.requestIdCounter + 1
  let st1 := { st with requestIdCounter := mid }
  let m : Message :=
    { name := some "ClosePopup"
      messageId := JsId.num mid
      extra := match popupResponse with | some s => [("popupResponse", s)] | none => [] }
  (st1, Effect.alloc mid :: sendMessage trr st1 m, m)

/-- The rejection produced by `destroy` for each pending request. -/
def sdkDestroyedError : JsError :=
  { name := "SDKDestroyed", message := "SDK destroyed" }

/-- The `destroy` (lines 572-593): clear listeners; reject every pending
request with the `SDKDestroyed` error while the table is still
populated; clear the table; detach the handler when the environment
supports it; log. -/
def destroy (g : GlobalEnv) (st : SDKState) : SDKState × List Effect :=
  let rejects := st.pendingRequests.map (fun k => Effect.settleReject k sdkDestroyedError)
  ({ st with
      listeners := []
      pendingRequests := []
      attached := if g.hasRemoveEventListener then false else st.attached },
   Effect.clearListeners :: rejects ++ [Effect.clearPending] ++
     (if g.hasRemoveEventListener then [Effect.detach] else []) ++
     (if st.debug then [Effect.logInfo "SDK destroyed"] else []))

/-- One externally triggered SDK operation; transport outcomes travel
with the operation since the transport is external nondeterminism. -/
inductive Op where
  | opDeliver : Inbound → Op
  | opSendRequest : Option JsError → Message → Op
  | opSendMessage : Option JsError → Message → Op
  | opOn : String → Nat → Op
  | opOff : String → Nat → Op
  | opOpenFeedback : Option JsError → JsId → Op
  | opSetDirty : Option JsError → JsId → Op
  | opClearDirty : Option JsError → Op
  | opValidationFeedback : Option JsError → Option Bool → Option String → JsId → Op
  | opClosePopup : Option JsError → Option String → Op
  | opDestroy : Op
deriving Repr

/-- Single-step semantics of the public surface. -/
def step (g : GlobalEnv) (env : CbEnv) (st : SDKState) : Op → SDKState × List Effect
  | Op.opDeliver d => deliver env st d
  | Op.opSendRequest trr m =>
      let r := sendRequest trr st m
      (r.1, r.2.1)
  | Op.opSendMessage trr m => (st, sendMessage trr st m)
  | Op.opOn n c => (onEvent st n c, [])
  | Op.opOff n c => (offEvent st n c, [])
  | Op.opOpenFeedback trr x =>
      let r := openFeedback trr st x
      (r.1, r.2.1)
  | Op.opSetDirty trr x =>
      let r := setDirty trr st x
      (r.1, r.2.1)
  | Op.opClearDirty trr =>
      let r := clearDirty trr st
      (r.1, r.2.1)
  | Op.opValidationFeedback trr v t x =>
      let r := validationFeedback trr st v t x
      (r.1, r.2.1)
  | Op.opClosePopup trr pr =>
      let r := closePopup trr st pr
      (r.1, r.2.1)
  | Op.opDestroy => destroy g st

/-- A whole session: fold the steps, concatenating effect traces. -/
def run (g : GlobalEnv) (env : CbEnv) (st : SDKState) : List Op → SDKState × List Effect
  | [] => (st, [])
  | op :: rest =>
      let r1 := step g env st op
      let r2 := run g env r1.1 rest
      (r2.1, r1.2 ++ r2.2)

/-- The ids allocated by `_nextMessageId`, in trace order. -/
def allocsOf (effs : List Effect) : List Int :=
  effs.filterMap (fun e => match e with | Effect.alloc i => some i | _ => none)

/-! ## Concrete fixtures used by witnesses and counterexamples -/

/-- A browser-like global: both listener primitives available. -/
def gBrowser : GlobalEnv :=
  { hasAddEventListener := true, hasRemoveEventListener := true }

/-- A freshly constructed instance in a browser-like global, debug off. -/
def baseState : SDKState := (createInstance gBrowser false).1

/-- Callback environment where every callback returns normally. -/
def envOk : CbEnv := fun _ _ => Except.ok ()

/-- Callback environment where callback 0 throws and the rest return. -/
def envBoom : CbEnv := fun c _ => if c = 0 then Except.error "boom" else Except.ok ()

/-- The error reply of the error scenario of the spec, correlating to id 1. -/
def badPayloadMsg : Message :=
  { name := some "InvalidMessageError", correlationId := JsId.num 1,
    errors := some [{ error := some "Bad payload" }] }

/-- A state with one pending request (id 1) and a subscriber registered
under the very name the correlated reply will carry. -/
def c1St : SDKState :=
  { baseState with pendingRequests := [1],
                   listeners := [("ShowDialogResponse", [3])] }

/-- A correlated reply whose name is also a subscribed event name. -/
def c1Msg : Message :=
  { name := some "ShowDialogResponse", correlationId := JsId.num 1 }

/-- A state with no pending request but an Open subscriber. -/
def c4St : SDKState := { baseState with listeners := [("Open", [7])] }

/-- A late message still carrying the already-settled correlation id 1. -/
def c4Msg : Message :=
  { name := some "Open", messageId := JsId.num 9, correlationId := JsId.num 1 }

/-- A state with pending request 1, for the error-normalization witness. -/
def c8St : SDKState := { baseState with pendingRequests := [1] }

/-- A state with two pending requests and a live subscriber. -/
def c2St : SDKState :=
  { baseState with pendingRequests := [1, 2], listeners := [("Open", [7])] }

/-- A transport error thrown synchronously by `postMessage`. -/
def cErr : JsError := { name := "Error", message := "postMessage boom" }

/-- A plain request payload before stamping. -/
def c3Msg : Message := { name := some "UpdateRequest" }

/-- An inbound Open notification with `messageId` 42. -/
def openMsg42 : Message := { name := some "Open", messageId := JsId.num 42 }

/-- An inbound Open notification with `messageId` 0. -/
def openMsg0 : Message := { name := some "Open", messageId := JsId.num 0 }

/-- The state of a fresh instance after routing the Open with id 42. -/
def st42 : SDKState := (handleMessage envOk baseState (Inbound.msg openMsg42)).1

/-- The state of a fresh instance after routing the Open with id 0. -/
def st0 : SDKState := (handleMessage envOk baseState (Inbound.msg openMsg0)).1

/-- A state with two Open subscribers registered through `on`, in order. -/
def c9St : SDKState := onEvent (onEvent baseState "Open" 0) "Open" 1

/-- An inbound Open event to dispatch to both subscribers. -/
def c9Msg : Message := { name := some "Open", messageId := JsId.num 5 }

/-! ## Helper lemmas -/

/-- Does this effect settle the pending request keyed by `k`? -/
def isSettleFor (k : Int) : Effect → Bool
  | Effect.settleResolve i _ => i == k
  | Effect.settleReject i _ => i == k
  | _ => false

/-- The invoked callbacks of a trace together with their argument, in order. -/
def invokesOf (effs : List Effect) : List (Nat × Message) :=
  effs.filterMap (fun e => match e with | Effect.invoke c m => some (c, m) | _ => none)

/-- Invariant of the pending table: keys are pairwise distinct and never
exceed the id counter (so a fresh id is never already a key). -/
def PendingInv (st : SDKState) : Prop :=
  st.pendingRequests.Nodup ∧ ∀ k ∈ st.pendingRequests, k ≤ st.requestIdCounter

/-- A sample session mixing successful and failing sends with teardown. -/
def c7Ops : List Op :=
  [Op.opSendRequest none c3Msg, Op.opClearDirty none,
   Op.opSendRequest (some cErr) c3Msg, Op.opDestroy]

/-- A runtime with no way to receive inbound messages. -/
def gNoListen : GlobalEnv :=
  { hasAddEventListener := false, hasRemoveEventListener := false }

/-- The instance constructed in that runtime. -/
def stNoListen : SDKState := (createInstance gNoListen false).1

/-- A request sent through the unattached instance. -/
def inertReqMsg : Message := { name := some "ShowDialogRequest" }

/-- The state after that request succeeds at the transport level. -/
def stAfterReq : SDKState := (sendRequest none stNoListen inertReqMsg).1

/-- The host reply that would correlate to the request above. -/
def inertReplyMsg : Message :=
  { name := some "ShowDialogResponse", correlationId := JsId.num 1 }

/-- Field equations for the recording step of `handleEventPath`: only the
two last-id fields can change. -/
theorem recordLastIds_fields (st : SDKState) (m : Message) :
    ((if m.name = some "Open" then { st with lastOpenMessageId := m.messageId }
      else if m.name = some "Change" then { st with lastChangeMessageId := m.messageId }
      else st) : SDKState).listeners = st.listeners ∧
    ((if m.name = some "Open" then { st with lastOpenMessageId := m.messageId }
      else if m.name = some "Change" then { st with lastChangeMessageId := m.messageId }
      else st) : SDKState).pendingRequests = st.pendingRequests ∧
    ((if m.name = some "Open" then { st with lastOpenMessageId := m.messageId }
      else if m.name = some "Change" then { st with lastChangeMessageId := m.messageId }
      else st) : SDKState).requestIdCounter = st.requestIdCounter ∧
    ((if m.name = some "Open" then { st with lastOpenMessageId := m.messageId }
      else if m.name = some "Change" then { st with lastChangeMessageId := m.messageId }
      else st) : SDKState).debug = st.debug ∧
    ((if m.name = some "Open" then { st with lastOpenMessageId := m.messageId }
      else if m.name = some "Change" then { st with lastChangeMessageId := m.messageId }
      else st) : SDKState).attached = st.attached := by
  refine ⟨?_, ?_, ?_, ?_, ?_⟩
  · split
    · rfl
    · split <;> rfl
  · split
    · rfl
    · split <;> rfl
  · split
    · rfl
    · split <;> rfl
  · split
    · rfl
    · split <;> rfl
  · split
    · rfl
    · split <;> rfl

theorem handleMessage_correlated (env : CbEnv) (st : SDKState) (m : Message) (k : Int)
    (hk : m.correlationId = JsId.num k) (hmem : k ∈ st.pendingRequests) :
    handleMessage env st (Inbound.msg m) =
      ({ st with pendingRequests := mapDeleteKey st.pendingRequests k },
       (if st.debug then [Effect.logInfo "Host -> message"] else []) ++
         [Effect.removePending k,
          if m.name = some "InvalidMessageError" then Effect.settleReject k (toError m)
          else Effect.settleResolve k m]) := by
  simp only [handleMessage, hk, hmem, if_true]

theorem runListeners_mem (env : CbEnv) (n : String) (cbs : List Nat) (m : Message) :
    ∀ e ∈ runListeners env n cbs m,
      (∃ c, e = Effect.invoke c m) ∨ (∃ s, e = Effect.warn s) := by
  intro e he
  induction cbs with
  | nil => simp [runListeners] at he
  | cons c rest ih =>
      simp only [runListeners, List.flatMap_cons, List.mem_append] at he
      rcases he with he | he
      · cases h : env c m with
        | ok u => rw [h] at he; simp at he; exact Or.inl ⟨c, he⟩
        | error s =>
            rw [h] at he
            simp at he
            rcases he with he | he
            · exact Or.inl ⟨c, he⟩
            · exact Or.inr ⟨_, he⟩
      · exact ih he

/-- The effect trace of the event path: the header followed by the
dispatch effects computed over the unchanged listener registry. -/
theorem handleEventPath_eff (env : CbEnv) (st : SDKState) (m : Message)
    (hdr : List Effect) :
    (handleEventPath env st m hdr).2 =
      hdr ++ (match m.name with
        | some n =>
            if n = "" then []
            else
              match assocGet st.listeners n with
              | some cbs => runListeners env n cbs m
              | none => []
        | none => []) := by
  simp only [handleEventPath]
  rw [(recordLastIds_fields st m).1]

theorem handleEventPath_effects (env : CbEnv) (st : SDKState) (m : Message)
    (hdr : List Effect) :
    ∀ e ∈ (handleEventPath env st m hdr).2,
      e ∈ hdr ∨ (∃ c, e = Effect.invoke c m) ∨ (∃ s, e = Effect.warn s) := by
  intro e he
  rw [handleEventPath_eff env st m hdr] at he
  simp only [List.mem_append] at he
  rcases he with he | he
  · exact Or.inl he
  · right
    rcases hn : m.name with _ | n
    · rw [hn] at he; simp at he
    · rw [hn] at he
      by_cases hne : n = ""
      · simp [hne] at he
      · simp only [hne, if_false] at he
        rcases hget : assocGet st.listeners n with _ | cbs
        · rw [hget] at he; simp at he
        · rw [hget] at he
          exact runListeners_mem env n cbs m e he

theorem handleEventPath_state (env : CbEnv) (st : SDKState) (m : Message)
    (hdr : List Effect) :
    (handleEventPath env st m hdr).1.pendingRequests = st.pendingRequests ∧
    (handleEventPath env st m hdr).1.listeners = st.listeners ∧
    (handleEventPath env st m hdr).1.requestIdCounter = st.requestIdCounter ∧
    (handleEventPath env st m hdr).1.debug = st.debug ∧
    (handleEventPath env st m hdr).1.attached = st.attached := by
  simp only [handleEventPath]
  have h := recordLastIds_fields st m
  exact ⟨h.2.1, h.1, h.2.2.1, h.2.2.2.1, h.2.2.2.2⟩

theorem handleMessage_not_correlated (env : CbEnv) (st : SDKState) (m : Message)
    (h : ∀ k, m.correlationId = JsId.num k → k ∉ st.pendingRequests) :
    handleMessage env st (Inbound.msg m) =
      handleEventPath env st m
        (if st.debug then [Effect.logInfo "Host -> message"] else []) := by
  rcases hc : m.correlationId with _ | _ | k
  · simp only [handleMessage, hc]
  · simp only [handleMessage, hc]
  · simp only [handleMessage, hc]
    rw [if_neg (h k hc)]

/-! ## C1: correlation takes priority over event dispatch -/

/-- C1: for every inbound message whose `correlationId` is a key of the
pending-request table, routing removes that pending entry first and then
settles it (reject via the normalized error when its name is
`InvalidMessageError`, otherwise resolve with the full inbound message);
the message is not dispatched to any event listener and does not update
the last-seen Open/Change ids, even when its name matches a subscribed
event name.  (`handleMessage` is a total function, so routing raises no
exception.) -/
theorem correlated_reply_priority (env : CbEnv) (st : SDKState) (m : Message) (k : Int)
    (hk : m.correlationId = JsId.num k) (hmem : k ∈ st.pendingRequests) :
    (handleMessage env st (Inbound.msg m)).1.pendingRequests =
        mapDeleteKey st.pendingRequests k ∧
    k ∉ (handleMessage env st (Inbound.msg m)).1.pendingRequests ∧
    (handleMessage env st (Inbound.msg m)).1.lastOpenMessageId = st.lastOpenMessageId ∧
    (handleMessage env st (Inbound.msg m)).1.lastChangeMessageId = st.lastChangeMessageId ∧
    (handleMessage env st (Inbound.msg m)).1.listeners = st.listeners ∧
    (∃ pre, (handleMessage env st (Inbound.msg m)).2 =
        pre ++ [Effect.removePending k,
          if m.name = some "InvalidMessageError" then Effect.settleReject k (toError m)
          else Effect.settleResolve k m] ∧
        ∀ e ∈ pre, ∃ s, e = Effect.logInfo s) ∧
    (∀ c mm, Effect.invoke c mm ∉ (handleMessage env st (Inbound.msg m)).2) := by
  have h := handleMessage_correlated env st m k hk hmem
  rw [h]
  refine ⟨rfl, ?_, rfl, rfl, rfl, ?_, ?_⟩
  · simp [mapDeleteKey, List.mem_filter]
  · refine ⟨if st.debug then [Effect.logInfo "Host -> message"] else [], rfl, ?_⟩
    intro e he
    by_cases hd : st.debug
    · rw [if_pos hd] at he
      simp at he
      exact ⟨_, he⟩
    · simp [hd] at he
  · intro c mm
    simp only [List.mem_append, List.mem_cons, List.not_mem_nil]
    rintro (hin | hin | hin | hin)
    · by_cases hd : st.debug
      · rw [if_pos hd] at hin; simp at hin
      · simp [hd] at hin
    · cases hin
    · by_cases hn : m.name = some "InvalidMessageError"
      · rw [if_pos hn] at hin; cases hin
      · rw [if_neg hn] at hin; cases hin
    · exact hin

/-- Witness for C1 at a concrete input: pending id 1, and a reply named
`ShowDialogResponse` while a `ShowDialogResponse` listener is subscribed. -/
theorem correlated_reply_priority_witness :
    (c1Msg.correlationId = JsId.num 1 ∧ 1 ∈ c1St.pendingRequests) ∧
    ((handleMessage envOk c1St (Inbound.msg c1Msg)).1.pendingRequests =
        mapDeleteKey c1St.pendingRequests 1 ∧
     1 ∉ (handleMessage envOk c1St (Inbound.msg c1Msg)).1.pendingRequests ∧
     (handleMessage envOk c1St (Inbound.msg c1Msg)).1.lastOpenMessageId =
        c1St.lastOpenMessageId ∧
     (handleMessage envOk c1St (Inbound.msg c1Msg)).1.lastChangeMessageId =
        c1St.lastChangeMessageId ∧
     (handleMessage envOk c1St (Inbound.msg c1Msg)).1.listeners = c1St.listeners ∧
     (∃ pre, (handleMessage envOk c1St (Inbound.msg c1Msg)).2 =
        pre ++ [Effect.removePending 1,
          if c1Msg.name = some "InvalidMessageError" then
            Effect.settleReject 1 (toError c1Msg)
          else Effect.settleResolve 1 c1Msg] ∧
        ∀ e ∈ pre, ∃ s, e = Effect.logInfo s) ∧
     (∀ c mm, Effect.invoke c mm ∉ (handleMessage envOk c1St (Inbound.msg c1Msg)).2)) :=
  ⟨⟨rfl, by decide⟩, correlated_reply_priority envOk c1St c1Msg 1 rfl (by decide)⟩

/-! ## C4: at-most-once settlement -/

/-- C4: once a pending request has been settled (its table entry is gone —
both settlement on a correlated reply and teardown remove the entry),
routing a further inbound message carrying the same `correlationId`
settles nothing: no settlement effect for that id is produced and the id
does not reappear in the table.  (`handleMessage` is a total function, so
the second routing raises no exception.) -/
theorem at_most_once_settlement (env : CbEnv) (st : SDKState) (m : Message) (k : Int)
    (hk : m.correlationId = JsId.num k) (hgone : k ∉ st.pendingRequests) :
    (∀ e ∈ (handleMessage env st (Inbound.msg m)).2, isSettleFor k e = false) ∧
    k ∉ (handleMessage env st (Inbound.msg m)).1.pendingRequests := by
  have hall : ∀ k', m.correlationId = JsId.num k' → k' ∉ st.pendingRequests := by
    intro k' hk'
    rw [hk] at hk'
    cases hk'
    exact hgone
  rw [handleMessage_not_correlated env st m hall]
  constructor
  · intro e he
    rcases handleEventPath_effects env st m _ e he with hin | ⟨c, rfl⟩ | ⟨s, rfl⟩
    · by_cases hd : st.debug
      · rw [if_pos hd] at hin
        simp at hin
        rw [hin]; rfl
      · simp [hd] at hin
    · rfl
    · rfl
  · rw [(handleEventPath_state env st m _).1]
    exact hgone

/-- Witness for C4 at a concrete input: id 1 already settled (absent from
the table), a late message named `Open` still carrying `correlationId` 1,
with an `Open` subscriber present. -/
theorem at_most_once_settlement_witness :
    (c4Msg.correlationId = JsId.num 1 ∧ 1 ∉ c4St.pendingRequests) ∧
    ((∀ e ∈ (handleMessage envOk c4St (Inbound.msg c4Msg)).2, isSettleFor 1 e = false) ∧
     1 ∉ (handleMessage envOk c4St (Inbound.msg c4Msg)).1.pendingRequests) :=
  ⟨⟨rfl, by decide⟩, at_most_once_settlement envOk c4St c4Msg 1 rfl (by decide)⟩

/-! ## C8: normalization of InvalidMessageError replies -/

/-- C8: an inbound `InvalidMessageError` reply correlating to a pending
request rejects it with the normalized error: `message` is the text of
the first `errors` entry (fallback `"Unknown error"` when the sequence is
absent or empty), `name` is the name of the original message (here
`InvalidMessageError`), `details` is exactly the original `errors`
sequence (`none` marking absence), and `rawMessage` is the full original
inbound message. -/
theorem invalid_message_error_normalized (env : CbEnv) (st : SDKState) (m : Message)
    (k : Int) (hk : m.correlationId = JsId.num k) (hmem : k ∈ st.pendingRequests)
    (hname : m.name = some "InvalidMessageError") :
    Effect.settleReject k (toError m) ∈ (handleMessage env st (Inbound.msg m)).2 ∧
    (toError m).name = "InvalidMessageError" ∧
    (toError m).details = m.errors ∧
    (toError m).rawMessage = some m ∧
    (∀ e rest s, m.errors = some (e :: rest) → e.error = some s → s ≠ "" →
        (toError m).message = s) ∧
    (m.errors = none ∨ m.errors = some [] → (toError m).message = "Unknown error") := by
  have h := handleMessage_correlated env st m k hk hmem
  refine ⟨?_, ?_, rfl, rfl, ?_, ?_⟩
  · rw [h]
    simp [hname]
  · simp [toError, hname]
  · intro e rest s h1 h2 h3
    simp [toError, h1, h2, h3]
  · rintro (h1 | h1) <;> simp [toError, h1]

/-- Witness for C8 at the error scenario of the spec: pending id 1 and
`{name: InvalidMessageError, correlationId: 1, errors: [{error: "Bad
payload"}]}`. -/
theorem invalid_message_error_normalized_witness :
    (badPayloadMsg.correlationId = JsId.num 1 ∧ 1 ∈ c8St.pendingRequests ∧
     badPayloadMsg.name = some "InvalidMessageError") ∧
    (Effect.settleReject 1 (toError badPayloadMsg) ∈
        (handleMessage envOk c8St (Inbound.msg badPayloadMsg)).2 ∧
     (toError badPayloadMsg).name = "InvalidMessageError" ∧
     (toError badPayloadMsg).details = badPayloadMsg.errors ∧
     (toError badPayloadMsg).rawMessage = some badPayloadMsg ∧
     (∀ e rest s, badPayloadMsg.errors = some (e :: rest) → e.error = some s → s ≠ "" →
        (toError badPayloadMsg).message = s) ∧
     (badPayloadMsg.errors = none ∨ badPayloadMsg.errors = some [] →
        (toError badPayloadMsg).message = "Unknown error")) :=
  ⟨⟨rfl, by decide, rfl⟩,
   invalid_message_error_normalized envOk c8St badPayloadMsg 1 rfl (by decide) rfl⟩

/-! ## C2: teardown rejects everything, then clears -/

theorem mem_mapSetKey_self (l : List Int) (k : Int) : k ∈ mapSetKey l k := by
  unfold mapSetKey
  split
  · assumption
  · simp

theorem not_mem_mapDeleteKey_self (l : List Int) (k : Int) : k ∉ mapDeleteKey l k := by
  unfold mapDeleteKey
  simp [List.mem_filter]

/-- C2: `destroy` rejects every pending request with an error named
`SDKDestroyed`; the rejections are computed over the still-populated
pending table and emitted before the `clearPending` step; afterwards both
the pending-request table and the listener registry are empty and the
inbound `message` handler is detached (the environment supports
`removeEventListener`). -/
theorem destroy_rejects_pending_then_clears (g : GlobalEnv) (st : SDKState)
    (hrem : g.hasRemoveEventListener = true) :
    (∀ k ∈ st.pendingRequests,
        Effect.settleReject k sdkDestroyedError ∈ (destroy g st).2) ∧
    sdkDestroyedError.name = "SDKDestroyed" ∧
    (∃ pre post, (destroy g st).2 = pre ++ Effect.clearPending :: post ∧
        ∀ k ∈ st.pendingRequests, Effect.settleReject k sdkDestroyedError ∈ pre) ∧
    (destroy g st).1.pendingRequests = [] ∧
    (destroy g st).1.listeners = [] ∧
    (destroy g st).1.attached = false := by
  refine ⟨?_, rfl, ?_, rfl, rfl, ?_⟩
  · intro k hk
    exact List.mem_append_left _ (List.mem_append_left _ (List.mem_append_left _
      (List.mem_cons_of_mem _ (List.mem_map_of_mem _ hk))))
  · refine ⟨Effect.clearListeners ::
        st.pendingRequests.map (fun k => Effect.settleReject k sdkDestroyedError),
      (if g.hasRemoveEventListener then [Effect.detach] else []) ++
        (if st.debug then [Effect.logInfo "SDK destroyed"] else []), ?_, ?_⟩
    · simp [destroy]
    · intro k hk
      exact List.mem_cons_of_mem _ (List.mem_map_of_mem _ hk)
  · simp [destroy, hrem]

/-- Witness for C2 at a concrete input: a browser global and a state with
pending requests 1 and 2 and a live listener. -/
theorem destroy_rejects_pending_then_clears_witness :
    gBrowser.hasRemoveEventListener = true ∧
    ((∀ k ∈ c2St.pendingRequests,
        Effect.settleReject k sdkDestroyedError ∈ (destroy gBrowser c2St).2) ∧
     sdkDestroyedError.name = "SDKDestroyed" ∧
     (∃ pre post, (destroy gBrowser c2St).2 = pre ++ Effect.clearPending :: post ∧
        ∀ k ∈ c2St.pendingRequests, Effect.settleReject k sdkDestroyedError ∈ pre) ∧
     (destroy gBrowser c2St).1.pendingRequests = [] ∧
     (destroy gBrowser c2St).1.listeners = [] ∧
     (destroy gBrowser c2St).1.attached = false) :=
  ⟨rfl, destroy_rejects_pending_then_clears gBrowser c2St rfl⟩

/-! ## C3: registration precedes the transport send -/

/-- C3: `sendRequest` inserts the pending entry keyed by the freshly
allocated id into the table before the transport send is attempted (the
`register` effect precedes the `sendAttempt` effect in the trace); when
the transport send throws synchronously the entry is removed again and
the promise is rejected with the transport error, leaving no entry for
that id; when the send succeeds the entry stays and the promise is
outstanding. -/
theorem sendRequest_registers_before_send (trr : Option JsError) (st : SDKState)
    (m : Message) :
    (∃ pre post, (sendRequest trr st m).2.1 =
        pre ++ Effect.register (st.requestIdCounter + 1) ::
          Effect.sendAttempt (stampMessage m (st.requestIdCounter + 1)) :: post) ∧
    (match trr with
     | none =>
         (sendRequest trr st m).2.2 = ReqOutcome.outstanding (st.requestIdCounter + 1) ∧
         (st.requestIdCounter + 1) ∈ (sendRequest trr st m).1.pendingRequests
     | some e =>
         (sendRequest trr st m).2.2 = ReqOutcome.rejected (st.requestIdCounter + 1) e ∧
         (st.requestIdCounter + 1) ∉ (sendRequest trr st m).1.pendingRequests) := by
  cases trr with
  | none =>
      refine ⟨⟨Effect.alloc (st.requestIdCounter + 1) ::
          (if st.debug then [Effect.logInfo "SDK -> message"] else []), [], ?_⟩, rfl, ?_⟩
      · simp [sendRequest]
      · simp only [sendRequest]
        exact mem_mapSetKey_self _ _
  | some e =>
      refine ⟨⟨Effect.alloc (st.requestIdCounter + 1) ::
          (if st.debug then [Effect.logInfo "SDK -> message"] else []),
          [Effect.warn ("postMessage error for " ++
              nameOrUnknown (stampMessage m (st.requestIdCounter + 1)) ++ ": " ++
              e.message),
           Effect.removePending (st.requestIdCounter + 1)], ?_⟩, rfl, ?_⟩
      · simp [sendRequest]
      · simp only [sendRequest]
        exact not_mem_mapDeleteKey_self _ _

/-- Witness for C3 at a concrete input: a throwing transport and an
`UpdateRequest` payload sent from a fresh instance. -/
theorem sendRequest_registers_before_send_witness :
    (∃ pre post, (sendRequest (some cErr) baseState c3Msg).2.1 =
        pre ++ Effect.register (baseState.requestIdCounter + 1) ::
          Effect.sendAttempt (stampMessage c3Msg (baseState.requestIdCounter + 1)) ::
            post) ∧
    ((sendRequest (some cErr) baseState c3Msg).2.2 =
        ReqOutcome.rejected (baseState.requestIdCounter + 1) cErr ∧
     (baseState.requestIdCounter + 1) ∉
        (sendRequest (some cErr) baseState c3Msg).1.pendingRequests) :=
  sendRequest_registers_before_send (some cErr) baseState c3Msg

/-! ## C6: reply-style sends refuse to send without a correlation id -/

/-- C6: with no explicit id and no recorded last Open/Change id,
`openFeedback`, `setDirty` and `validationFeedback` each return a null
result, log exactly one warning naming the missing precondition, leave
the state unchanged, and perform no transport send (the full effect list
is that warning alone). -/
theorem reply_guard_refuses_without_id (trr : Option JsError) (st : SDKState)
    (v : Option Bool) (t : Option String)
    (hOpen : st.lastOpenMessageId = JsId.undef ∨ st.lastOpenMessageId = JsId.null)
    (hChange : st.lastChangeMessageId = JsId.undef ∨ st.lastChangeMessageId = JsId.null) :
    openFeedback trr st JsId.undef =
      (st, [Effect.warn "OpenFeedback not sent: openMessageId is missing"], none) ∧
    setDirty trr st JsId.undef =
      (st, [Effect.warn "SetDirty not sent: openMessageId is missing"], none) ∧
    validationFeedback trr st v t JsId.undef =
      (st, [Effect.warn "ValidationFeedback not sent: changeMessageId is missing"], none) := by
  have hO : getOpenMessageId st JsId.undef = JsId.null := by
    unfold getOpenMessageId orNull
    rcases hOpen with h | h <;> simp [h]
  have hC : getChangeMessageId st JsId.undef = JsId.null := by
    unfold getChangeMessageId orNull
    rcases hChange with h | h <;> simp [h]
  refine ⟨?_, ?_, ?_⟩
  · simp only [openFeedback, hO]
  · simp only [setDirty, hO]
  · simp only [validationFeedback, hC]

/-- Witness for C6 at a concrete input: a fresh instance (both recorded
ids are `null`). -/
theorem reply_guard_refuses_without_id_witness :
    (baseState.lastOpenMessageId = JsId.undef ∨
        baseState.lastOpenMessageId = JsId.null) ∧
    (baseState.lastChangeMessageId = JsId.undef ∨
        baseState.lastChangeMessageId = JsId.null) ∧
    (openFeedback none baseState JsId.undef =
      (baseState, [Effect.warn "OpenFeedback not sent: openMessageId is missing"], none) ∧
     setDirty none baseState JsId.undef =
      (baseState, [Effect.warn "SetDirty not sent: openMessageId is missing"], none) ∧
     validationFeedback none baseState (some true) none JsId.undef =
      (baseState,
       [Effect.warn "ValidationFeedback not sent: changeMessageId is missing"], none)) :=
  ⟨Or.inr rfl, Or.inr rfl,
   reply_guard_refuses_without_id none baseState (some true) none (Or.inr rfl)
     (Or.inr rfl)⟩

/-! ## C5: implicit correlation-id resolution -/

/-- C5 counterexample: after routing an inbound Open whose `messageId` is
0, the recorded last-Open id is 0 — neither `undefined` nor `null` — yet
the accessor reports absence (`null`) and `openFeedback` refuses to send:
the `_lastOpenMessageId || null` fallback coerces a recorded id of zero
to absence, so the claim that "absence is reported only when the value is
undefined or null — an id of zero is distinct from absence" fails on the
fallback path. -/
theorem recorded_zero_id_treated_as_absent :
    st0.lastOpenMessageId = JsId.num 0 ∧
    JsId.num 0 ≠ JsId.undef ∧ JsId.num 0 ≠ JsId.null ∧
    getOpenMessageId st0 JsId.undef = JsId.null ∧
    openFeedback none st0 JsId.undef =
      (st0, [Effect.warn "OpenFeedback not sent: openMessageId is missing"], none) := by
  decide

/-- C5 amended: an explicit id that is not `undefined`/`null` is used
verbatim — including an explicit id of 0; a recorded positive id is
honored by the fallback; with no recorded id the accessor reports `null`;
(a recorded id of 0 is the exception, coerced to absence — see the
counterexample).  In particular, after routing an inbound Open with
`messageId` 42 and no explicit id, `openFeedback` resolves its
correlation id to 42, and an explicit id of 7 overrides the recorded
42. -/
theorem implicit_id_resolution (st : SDKState) (a b : Int) (hb : 0 < b) :
    getOpenMessageId st (JsId.num a) = JsId.num a ∧
    getChangeMessageId st (JsId.num a) = JsId.num a ∧
    (st.lastOpenMessageId = JsId.num b → getOpenMessageId st JsId.undef = JsId.num b) ∧
    (st.lastChangeMessageId = JsId.num b →
        getChangeMessageId st JsId.undef = JsId.num b) ∧
    ((st.lastOpenMessageId = JsId.undef ∨ st.lastOpenMessageId = JsId.null) →
        getOpenMessageId st JsId.undef = JsId.null) ∧
    st42.lastOpenMessageId = JsId.num 42 ∧
    openFeedback none st42 JsId.undef =
      (st42,
       [Effect.sendAttempt { name := some "OpenFeedback", correlationId := JsId.num 42 }],
       some { name := some "OpenFeedback", correlationId := JsId.num 42 }) ∧
    openFeedback none st42 (JsId.num 7) =
      (st42,
       [Effect.sendAttempt { name := some "OpenFeedback", correlationId := JsId.num 7 }],
       some { name := some "OpenFeedback", correlationId := JsId.num 7 }) := by
  refine ⟨?_, ?_, ?_, ?_, ?_, by decide, by decide, by decide⟩
  · simp [getOpenMessageId]
  · simp [getChangeMessageId]
  · intro h
    simp [getOpenMessageId, orNull, h, hb.ne']
  · intro h
    simp [getChangeMessageId, orNull, h, hb.ne']
  · rintro (h | h) <;> simp [getOpenMessageId, orNull, h]

/-- Witness for the amended C5 at a concrete input: the state recorded
from the Open-42 routing, explicit id 0, recorded id 42. -/
theorem implicit_id_resolution_witness :
    (0 : Int) < 42 ∧
    (getOpenMessageId st42 (JsId.num 0) = JsId.num 0 ∧
     getChangeMessageId st42 (JsId.num 0) = JsId.num 0 ∧
     (st42.lastOpenMessageId = JsId.num 42 →
        getOpenMessageId st42 JsId.undef = JsId.num 42) ∧
     (st42.lastChangeMessageId = JsId.num 42 →
        getChangeMessageId st42 JsId.undef = JsId.num 42) ∧
     ((st42.lastOpenMessageId = JsId.undef ∨ st42.lastOpenMessageId = JsId.null) →
        getOpenMessageId st42 JsId.undef = JsId.null) ∧
     st42.lastOpenMessageId = JsId.num 42 ∧
     openFeedback none st42 JsId.undef =
      (st42,
       [Effect.sendAttempt { name := some "OpenFeedback", correlationId := JsId.num 42 }],
       some { name := some "OpenFeedback", correlationId := JsId.num 42 }) ∧
     openFeedback none st42 (JsId.num 7) =
      (st42,
       [Effect.sendAttempt { name := some "OpenFeedback", correlationId := JsId.num 7 }],
       some { name := some "OpenFeedback", correlationId := JsId.num 7 })) :=
  ⟨by decide, implicit_id_resolution st42 0 42 (by decide)⟩

/-! ## C9: listener isolation during dispatch -/

theorem runListeners_cons (env : CbEnv) (n : String) (c : Nat) (rest : List Nat)
    (m : Message) :
    runListeners env n (c :: rest) m =
      (match env c m with
       | Except.ok _ => [Effect.invoke c m]
       | Except.error s =>
           [Effect.invoke c m,
            Effect.warn ("Listener error for " ++ n ++ ": " ++ s)]) ++
        runListeners env n rest m := by
  simp [runListeners]

theorem invokesOf_append (a b : List Effect) :
    invokesOf (a ++ b) = invokesOf a ++ invokesOf b := by
  simp [invokesOf]

theorem invokesOf_runListeners (env : CbEnv) (n : String) (cbs : List Nat)
    (m : Message) :
    invokesOf (runListeners env n cbs m) = cbs.map (fun c => (c, m)) := by
  induction cbs with
  | nil => rfl
  | cons c rest ih =>
      rw [runListeners_cons, invokesOf_append]
      cases h : env c m with
      | ok u =>
          simp only [invokesOf, List.filterMap, List.map_cons]
          rw [List.cons_append, List.nil_append]
          exact congrArg _ ih
      | error s =>
          simp only [invokesOf, List.filterMap, List.map_cons]
          rw [List.cons_append, List.nil_append]
          exact congrArg _ ih

theorem runListeners_warn_mem (env : CbEnv) (n : String) (cbs : List Nat)
    (m : Message) (c : Nat) (s : String) (hc : c ∈ cbs)
    (he : env c m = Except.error s) :
    Effect.warn ("Listener error for " ++ n ++ ": " ++ s) ∈
      runListeners env n cbs m := by
  induction cbs with
  | nil => cases hc
  | cons c0 rest ih =>
      rw [runListeners_cons]
      rcases List.mem_cons.mp hc with rfl | hc'
      · rw [he]
        simp
      · exact List.mem_append_right _ (ih hc')

/-- C9: when an inbound message (not correlating to any pending request)
is dispatched, every currently-registered callback for its event name is
invoked, in registration order, with the same message — including the
callbacks after one that throws; each failure of a throwing callback is
caught individually and logged as a warning naming the event.
(`handleMessage` is a total function, so no exception escapes
dispatch.) -/
theorem listener_isolation_dispatch (env : CbEnv) (st : SDKState) (n : String)
    (cbs : List Nat) (m : Message)
    (hn : m.name = some n) (hne : n ≠ "")
    (hcbs : assocGet st.listeners n = some cbs) (_h2 : 2 ≤ cbs.length)
    (hnc : ∀ k, m.correlationId = JsId.num k → k ∉ st.pendingRequests) :
    invokesOf (handleMessage env st (Inbound.msg m)).2 = cbs.map (fun c => (c, m)) ∧
    (∀ c s, c ∈ cbs → env c m = Except.error s →
        Effect.warn ("Listener error for " ++ n ++ ": " ++ s) ∈
          (handleMessage env st (Inbound.msg m)).2) := by
  have heq : (handleMessage env st (Inbound.msg m)).2 =
      (if st.debug then [Effect.logInfo "Host -> message"] else []) ++
        runListeners env n cbs m := by
    rw [handleMessage_not_correlated env st m hnc, handleEventPath_eff]
    simp only [hn]
    rw [if_neg hne]
    simp only [hcbs]
  constructor
  · rw [heq, invokesOf_append, invokesOf_runListeners]
    cases hd : st.debug <;> simp [invokesOf]
  · intro c s hc he
    rw [heq]
    exact List.mem_append_right _ (runListeners_warn_mem env n cbs m c s hc he)

/-- Witness for C9 at a concrete input: two Open subscribers registered
through `on`; the first (callback 0) throws `"boom"`, the second still
runs. -/
theorem listener_isolation_dispatch_witness :
    (c9Msg.name = some "Open" ∧ "Open" ≠ "" ∧
     assocGet c9St.listeners "Open" = some [0, 1] ∧ 2 ≤ ([0, 1] : List Nat).length ∧
     (∀ k, c9Msg.correlationId = JsId.num k → k ∉ c9St.pendingRequests)) ∧
    (invokesOf (handleMessage envBoom c9St (Inbound.msg c9Msg)).2 =
        ([0, 1] : List Nat).map (fun c => (c, c9Msg)) ∧
     (∀ c s, c ∈ ([0, 1] : List Nat) → envBoom c c9Msg = Except.error s →
        Effect.warn ("Listener error for " ++ "Open" ++ ": " ++ s) ∈
          (handleMessage envBoom c9St (Inbound.msg c9Msg)).2)) :=
  ⟨⟨rfl, by decide, by decide, by decide, fun k hk => absurd hk (by simp [c9Msg])⟩,
   listener_isolation_dispatch envBoom c9St "Open" [0, 1] c9Msg rfl (by decide)
     (by decide) (by decide) (fun k hk => absurd hk (by simp [c9Msg]))⟩

/-! ## C7: id monotonicity and uniqueness of pending keys -/

theorem allocsOf_append (a b : List Effect) :
    allocsOf (a ++ b) = allocsOf a ++ allocsOf b := by
  simp [allocsOf]

theorem allocsOf_runListeners (env : CbEnv) (n : String) (cbs : List Nat)
    (m : Message) : allocsOf (runListeners env n cbs m) = [] := by
  induction cbs with
  | nil => rfl
  | cons c rest ih =>
      rw [runListeners_cons, allocsOf_append, ih]
      cases h : env c m <;> simp [allocsOf]

theorem allocsOf_handleEventPath (env : CbEnv) (st : SDKState) (m : Message)
    (hdr : List Effect) (h : allocsOf hdr = []) :
    allocsOf (handleEventPath env st m hdr).2 = [] := by
  rw [handleEventPath_eff, allocsOf_append, h]
  rcases hn : m.name with _ | n
  · simp [allocsOf]
  · by_cases hne : n = ""
    · simp [hne, allocsOf]
    · simp only [hne, if_false, List.nil_append]
      rcases hget : assocGet st.listeners n with _ | cbs
      · simp [allocsOf]
      · simp [allocsOf_runListeners]

theorem allocsOf_hdr (d : Bool) (s : String) :
    allocsOf (if d then [Effect.logInfo s] else []) = [] := by
  cases d <;> simp [allocsOf]

/-- Routing allocates no ids, keeps the counter, and only shrinks the
pending table. -/
theorem handleMessage_allocs (env : CbEnv) (st : SDKState) (d : Inbound) :
    allocsOf (handleMessage env st d).2 = [] ∧
    (handleMessage env st d).1.requestIdCounter = st.requestIdCounter ∧
    (handleMessage env st d).1.pendingRequests.Sublist st.pendingRequests := by
  cases d with
  | notObject =>
      refine ⟨?_, rfl, List.Sublist.refl _⟩
      simp only [handleMessage]
      exact allocsOf_hdr st.debug _
  | msg m =>
      rcases hc : m.correlationId with _ | _ | k
      · simp only [handleMessage, hc]
        exact ⟨allocsOf_handleEventPath env st m _ (allocsOf_hdr st.debug _),
          (handleEventPath_state env st m _).2.2.1,
          by rw [(handleEventPath_state env st m _).1]⟩
      · simp only [handleMessage, hc]
        exact ⟨allocsOf_handleEventPath env st m _ (allocsOf_hdr st.debug _),
          (handleEventPath_state env st m _).2.2.1,
          by rw [(handleEventPath_state env st m _).1]⟩
      · by_cases hmem : k ∈ st.pendingRequests
        · rw [handleMessage_correlated env st m k hc hmem]
          refine ⟨?_, rfl, ?_⟩
          · rw [allocsOf_append, allocsOf_hdr, List.nil_append]
            by_cases hn : m.name = some "InvalidMessageError"
            · rw [if_pos hn]; rfl
            · rw [if_neg hn]; rfl
          · exact List.filter_sublist _
        · have hall : ∀ k', m.correlationId = JsId.num k' → k' ∉ st.pendingRequests := by
            intro k' hk'
            rw [hc] at hk'
            cases hk'
            exact hmem
          rw [handleMessage_not_correlated env st m hall]
          exact ⟨allocsOf_handleEventPath env st m _ (allocsOf_hdr st.debug _),
            (handleEventPath_state env st m _).2.2.1,
            by rw [(handleEventPath_state env st m _).1]⟩

theorem allocsOf_sendMessage (trr : Option JsError) (st : SDKState) (m : Message) :
    allocsOf (sendMessage trr st m) = [] := by
  cases trr <;> cases hd : st.debug <;> simp [sendMessage, allocsOf, hd]

theorem allocsOf_rejects (l : List Int) (e : JsError) :
    allocsOf (l.map (fun k => Effect.settleReject k e)) = [] := by
  induction l with
  | nil => rfl
  | cons a rest ih =>
      simp only [List.map_cons, allocsOf, List.filterMap_cons]
      exact ih

/-- Effects of `onEvent`/`offEvent` on the non-listener fields: none. -/
theorem onEvent_fields (st : SDKState) (n : String) (c : Nat) :
    (onEvent st n c).requestIdCounter = st.requestIdCounter ∧
    (onEvent st n c).pendingRequests = st.pendingRequests := by
  simp only [onEvent]
  split <;> simp

theorem offEvent_fields (st : SDKState) (n : String) (c : Nat) :
    (offEvent st n c).requestIdCounter = st.requestIdCounter ∧
    (offEvent st n c).pendingRequests = st.pendingRequests := by
  simp only [offEvent]
  split <;> simp

theorem allocsOf_cons_alloc (i : Int) (rest : List Effect) :
    allocsOf (Effect.alloc i :: rest) = i :: allocsOf rest := by
  simp [allocsOf]

theorem allocsOf_cons (e : Effect) (rest : List Effect)
    (h : ∀ i, e ≠ Effect.alloc i) : allocsOf (e :: rest) = allocsOf rest := by
  cases e <;> first
    | exact absurd rfl (h _)
    | simp [allocsOf]

theorem allocsOf_destroy (g : GlobalEnv) (st : SDKState) :
    allocsOf (destroy g st).2 = [] := by
  simp only [destroy]
  rw [allocsOf_append, allocsOf_append, allocsOf_append,
    allocsOf_cons _ _ (by intro i h; cases h), allocsOf_rejects]
  cases hrem : g.hasRemoveEventListener <;> cases hd : st.debug <;> simp [allocsOf]

theorem allocsOf_sendRequest (trr : Option JsError) (st : SDKState) (m : Message) :
    allocsOf (sendRequest trr st m).2.1 = [st.requestIdCounter + 1] ∧
    (sendRequest trr st m).1.requestIdCounter = st.requestIdCounter + 1 := by
  cases trr with
  | none =>
      refine ⟨?_, rfl⟩
      simp only [sendRequest]
      rw [allocsOf_append, allocsOf_cons_alloc, allocsOf_hdr]
      simp [allocsOf]
  | some e =>
      refine ⟨?_, rfl⟩
      simp only [sendRequest]
      rw [allocsOf_append, allocsOf_cons_alloc, allocsOf_hdr]
      simp [allocsOf]

theorem no_alloc_bounds {c c' : Int} {effs : List Effect} (hle : c ≤ c')
    (h : allocsOf effs = []) :
    c ≤ c' ∧ (∀ a ∈ allocsOf effs, c < a ∧ a ≤ c') ∧
      List.Chain' (· < ·) (allocsOf effs) := by
  refine ⟨hle, ?_, ?_⟩ <;> rw [h]
  · intro a ha
    exact absurd ha (List.not_mem_nil a)
  · exact List.chain'_nil

theorem one_alloc_bounds {c c' : Int} {effs : List Effect} (hc : c' = c + 1)
    (h : allocsOf effs = [c + 1]) :
    c ≤ c' ∧ (∀ a ∈ allocsOf effs, c < a ∧ a ≤ c') ∧
      List.Chain' (· < ·) (allocsOf effs) := by
  subst hc
  refine ⟨by omega, ?_, ?_⟩ <;> rw [h]
  · intro a ha
    rw [List.mem_singleton] at ha
    subst ha
    exact ⟨by omega, by omega⟩
  · exact List.chain'_singleton _

/-- Every single public operation allocates ids above the entry counter,
in increasing order, and never decreases the counter. -/
theorem step_bounds (g : GlobalEnv) (env : CbEnv) (st : SDKState) (op : Op) :
    st.requestIdCounter ≤ (step g env st op).1.requestIdCounter ∧
    (∀ a ∈ allocsOf (step g env st op).2,
        st.requestIdCounter < a ∧ a ≤ (step g env st op).1.requestIdCounter) ∧
    List.Chain' (· < ·) (allocsOf (step g env st op).2) := by
  cases op with
  | opDeliver d =>
      simp only [step, deliver]
      by_cases ha : st.attached
      · rw [if_pos ha]
        exact no_alloc_bounds (le_of_eq (handleMessage_allocs env st d).2.1.symm)
          (handleMessage_allocs env st d).1
      · rw [if_neg ha]
        exact no_alloc_bounds (le_refl _) rfl
  | opSendRequest trr m =>
      simp only [step]
      exact one_alloc_bounds (allocsOf_sendRequest trr st m).2
        (allocsOf_sendRequest trr st m).1
  | opSendMessage trr m =>
      simp only [step]
      exact no_alloc_bounds (le_refl _) (allocsOf_sendMessage trr st m)
  | opOn n c =>
      simp only [step]
      exact no_alloc_bounds (le_of_eq (onEvent_fields st n c).1.symm) rfl
  | opOff n c =>
      simp only [step]
      exact no_alloc_bounds (le_of_eq (offEvent_fields st n c).1.symm) rfl
  | opOpenFeedback trr x =>
      simp only [step]
      rcases h : getOpenMessageId st x with _ | _ | n <;> simp only [openFeedback, h]
      · exact no_alloc_bounds (le_refl _) (allocsOf_sendMessage trr st _)
      · exact no_alloc_bounds (le_refl _) (by simp [allocsOf])
      · exact no_alloc_bounds (le_refl _) (allocsOf_sendMessage trr st _)
  | opSetDirty trr x =>
      simp only [step]
      rcases h : getOpenMessageId st x with _ | _ | n <;> simp only [setDirty, h]
      · exact one_alloc_bounds rfl
          (by rw [allocsOf_cons_alloc, allocsOf_sendMessage])
      · exact no_alloc_bounds (le_refl _) (by simp [allocsOf])
      · exact one_alloc_bounds rfl
          (by rw [allocsOf_cons_alloc, allocsOf_sendMessage])
  | opClearDirty trr =>
      simp only [step, clearDirty]
      exact one_alloc_bounds rfl (by rw [allocsOf_cons_alloc, allocsOf_sendMessage])
  | opValidationFeedback trr v t x =>
      simp only [step]
      rcases h : getChangeMessageId st x with _ | _ | n <;>
        simp only [validationFeedback, h]
      · exact one_alloc_bounds rfl
          (by rw [allocsOf_cons_alloc, allocsOf_sendMessage])
      · exact no_alloc_bounds (le_refl _) (by simp [allocsOf])
      · exact one_alloc_bounds rfl
          (by rw [allocsOf_cons_alloc, allocsOf_sendMessage])
  | opClosePopup trr pr =>
      simp only [step, closePopup]
      exact one_alloc_bounds rfl (by rw [allocsOf_cons_alloc, allocsOf_sendMessage])
  | opDestroy =>
      simp only [step]
      exact no_alloc_bounds (le_refl _) (allocsOf_destroy g st)

theorem mapSetKey_nodup (l : List Int) (k : Int) (h : l.Nodup) :
    (mapSetKey l k).Nodup := by
  unfold mapSetKey
  split
  · exact h
  · next hk =>
      refine List.nodup_append.mpr ⟨h, List.nodup_singleton _, ?_⟩
      intro a ha hb
      rw [List.mem_singleton] at hb
      subst hb
      exact hk ha

theorem mem_mapSetKey (l : List Int) (k x : Int) (h : x ∈ mapSetKey l k) :
    x ∈ l ∨ x = k := by
  unfold mapSetKey at h
  split at h
  · exact Or.inl h
  · rcases List.mem_append.mp h with h1 | h1
    · exact Or.inl h1
    · rw [List.mem_singleton] at h1
      exact Or.inr h1

/-- Every single public operation preserves the pending-table invariant. -/
theorem step_pendingInv (g : GlobalEnv) (env : CbEnv) (st : SDKState) (op : Op)
    (h : PendingInv st) : PendingInv (step g env st op).1 := by
  obtain ⟨hnd, hbd⟩ := h
  cases op with
  | opDeliver d =>
      simp only [step, deliver]
      by_cases ha : st.attached
      · rw [if_pos ha]
        obtain ⟨_, hcnt, hsub⟩ := handleMessage_allocs env st d
        exact ⟨hnd.sublist hsub, fun k hk => hcnt ▸ hbd k (hsub.subset hk)⟩
      · rw [if_neg ha]
        exact ⟨hnd, hbd⟩
  | opSendRequest trr m =>
      simp only [step]
      cases trr with
      | none =>
          simp only [sendRequest]
          refine ⟨mapSetKey_nodup _ _ hnd, ?_⟩
          intro k hk
          rcases mem_mapSetKey _ _ _ hk with h1 | h1
          · show k ≤ st.requestIdCounter + 1
            have := hbd k h1
            omega
          · show k ≤ st.requestIdCounter + 1
            omega
      | some e =>
          simp only [sendRequest]
          refine ⟨(mapSetKey_nodup _ _ hnd).sublist (List.filter_sublist _), ?_⟩
          intro k hk
          have hk2 : k ∈ mapSetKey st.pendingRequests (st.requestIdCounter + 1) :=
            (List.filter_sublist _).subset hk
          rcases mem_mapSetKey _ _ _ hk2 with h1 | h1
          · show k ≤ st.requestIdCounter + 1
            have := hbd k h1
            omega
          · show k ≤ st.requestIdCounter + 1
            omega
  | opSendMessage trr m => exact ⟨hnd, hbd⟩
  | opOn n c =>
      simp only [step, PendingInv, (onEvent_fields st n c).1, (onEvent_fields st n c).2]
      exact ⟨hnd, hbd⟩
  | opOff n c =>
      simp only [step, PendingInv, (offEvent_fields st n c).1, (offEvent_fields st n c).2]
      exact ⟨hnd, hbd⟩
  | opOpenFeedback trr x =>
      simp only [step]
      rcases hr : getOpenMessageId st x with _ | _ | n <;> simp only [openFeedback, hr] <;>
        exact ⟨hnd, hbd⟩
  | opSetDirty trr x =>
      simp only [step]
      rcases hr : getOpenMessageId st x with _ | _ | n <;> simp only [setDirty, hr]
      · exact ⟨hnd, fun k hk => by
          show k ≤ st.requestIdCounter + 1
          have := hbd k hk
          omega⟩
      · exact ⟨hnd, hbd⟩
      · exact ⟨hnd, fun k hk => by
          show k ≤ st.requestIdCounter + 1
          have := hbd k hk
          omega⟩
  | opClearDirty trr =>
      simp only [step, clearDirty]
      exact ⟨hnd, fun k hk => by
          show k ≤ st.requestIdCounter + 1
          have := hbd k hk
          omega⟩
  | opValidationFeedback trr v t x =>
      simp only [step]
      rcases hr : getChangeMessageId st x with _ | _ | n <;>
        simp only [validationFeedback, hr]
      · exact ⟨hnd, fun k hk => by
          show k ≤ st.requestIdCounter + 1
          have := hbd k hk
          omega⟩
      · exact ⟨hnd, hbd⟩
      · exact ⟨hnd, fun k hk => by
          show k ≤ st.requestIdCounter + 1
          have := hbd k hk
          omega⟩
  | opClosePopup trr pr =>
      simp only [step, closePopup]
      exact ⟨hnd, fun k hk => by
          show k ≤ st.requestIdCounter + 1
          have := hbd k hk
          omega⟩
  | opDestroy =>
      simp only [step, destroy]
      exact ⟨List.nodup_nil, fun k hk => absurd hk (List.not_mem_nil k)⟩

/-- Over a whole session: the counter never decreases, every allocation
exceeds the entry counter and is bounded by the exit counter, and the
allocations are strictly increasing. -/
theorem run_bounds (g : GlobalEnv) (env : CbEnv) (ops : List Op) : ∀ st : SDKState,
    st.requestIdCounter ≤ (run g env st ops).1.requestIdCounter ∧
    (∀ a ∈ allocsOf (run g env st ops).2,
        st.requestIdCounter < a ∧ a ≤ (run g env st ops).1.requestIdCounter) ∧
    List.Chain' (· < ·) (allocsOf (run g env st ops).2) := by
  induction ops with
  | nil =>
      intro st
      exact ⟨le_refl _, fun a ha => absurd ha (List.not_mem_nil a), List.chain'_nil⟩
  | cons op rest ih =>
      intro st
      obtain ⟨s1, sb, sc⟩ := step_bounds g env st op
      obtain ⟨r1, rb, rc⟩ := ih (step g env st op).1
      simp only [run]
      refine ⟨le_trans s1 r1, ?_, ?_⟩
      · intro a ha
        rw [allocsOf_append] at ha
        rcases List.mem_append.mp ha with hm | hm
        · obtain ⟨h1, h2⟩ := sb a hm
          exact ⟨h1, le_trans h2 r1⟩
        · obtain ⟨h1, h2⟩ := rb a hm
          exact ⟨lt_of_le_of_lt s1 h1, h2⟩
      · rw [allocsOf_append]
        refine List.Chain'.append sc rc ?_
        intro x hx y hy
        have hxm : x ∈ allocsOf (step g env st op).2 := by
          obtain ⟨hh, rfl⟩ := List.mem_getLast?_eq_getLast hx
          exact List.getLast_mem hh
        have hym : y ∈ allocsOf (run g env (step g env st op).1 rest).2 :=
          List.mem_of_mem_head? hy
        obtain ⟨_, hx2⟩ := sb x hxm
        obtain ⟨hy1, _⟩ := rb y hym
        omega

theorem run_pendingInv (g : GlobalEnv) (env : CbEnv) (ops : List Op) :
    ∀ st : SDKState, PendingInv st → PendingInv (run g env st ops).1 := by
  induction ops with
  | nil => exact fun st h => h
  | cons op rest ih =>
      intro st h
      simp only [run]
      exact ih _ (step_pendingInv g env st op h)

/-- C7: over any session started from a fresh instance, the sequence of
allocated message ids is strictly increasing (hence no id is ever reused,
even after the pending request keyed by it settles), and the pending
table never holds two entries with the same `messageId`. -/
theorem monotonic_ids_no_reuse (g : GlobalEnv) (env : CbEnv) (dbg : Bool)
    (ops : List Op) :
    List.Chain' (· < ·) (allocsOf (run g env (createInstance g dbg).1 ops).2) ∧
    (allocsOf (run g env (createInstance g dbg).1 ops).2).Nodup ∧
    (run g env (createInstance g dbg).1 ops).1.pendingRequests.Nodup := by
  have hch := (run_bounds g env ops (createInstance g dbg).1).2.2
  have hpi : PendingInv (createInstance g dbg).1 := by
    unfold createInstance PendingInv
    split <;> exact ⟨List.nodup_nil, fun k hk => absurd hk (List.not_mem_nil k)⟩
  refine ⟨hch, ?_, (run_pendingInv g env ops _ hpi).1⟩
  rw [List.chain'_iff_pairwise] at hch
  exact hch.imp (fun h => ne_of_lt h)

/-- Witness for C7 at a concrete session: two requests (one failing),
one `clearDirty`, then teardown. -/
theorem monotonic_ids_no_reuse_witness :
    List.Chain' (· < ·)
      (allocsOf (run gBrowser envOk (createInstance gBrowser false).1 c7Ops).2) ∧
    (allocsOf (run gBrowser envOk (createInstance gBrowser false).1 c7Ops).2).Nodup ∧
    (run gBrowser envOk (createInstance gBrowser false).1 c7Ops).1.pendingRequests.Nodup :=
  monotonic_ids_no_reuse gBrowser envOk false c7Ops

/-! ## C10: construction without a listener primitive -/

/-- C10 counterexample: in a runtime with no `addEventListener`,
construction logs the error and does not attach the handler — but the
instance is not inert: `sendRequest` still silently (no warning, no
error) registers a pending request and hands it to the transport, while
delivering even the exactly-correlating reply routes nothing, so the
request can never be resolved.  This contradicts "leaves the instance
inert, rather than silently accepting requests that can never be
resolved". -/
theorem failed_construction_accepts_unresolvable_request :
    (createInstance gNoListen false).2 =
      [Effect.errorLog "addEventListener is not available"] ∧
    stNoListen.attached = false ∧
    (sendRequest none stNoListen inertReqMsg).2.2 = ReqOutcome.outstanding 1 ∧
    stAfterReq.pendingRequests = [1] ∧
    (sendRequest none stNoListen inertReqMsg).2.1 =
      [Effect.alloc 1, Effect.register 1,
       Effect.sendAttempt (stampMessage inertReqMsg 1)] ∧
    deliver envOk stAfterReq (Inbound.msg inertReplyMsg) = (stAfterReq, []) := by
  decide

/-- C10 amended: if the runtime offers no `addEventListener`, construction
logs a loud error and never attaches the inbound handler, so no inbound
message is ever routed to the instance; however the instance is not
inert: `sendRequest` still registers a pending request and attempts the
transport send, and (the send succeeding) such a request stays pending
with no inbound routing ever able to settle it. -/
theorem failed_construction_logs_and_never_routes (g : GlobalEnv) (dbg : Bool)
    (env : CbEnv) (h : g.hasAddEventListener = false) :
    Effect.errorLog "addEventListener is not available" ∈ (createInstance g dbg).2 ∧
    (createInstance g dbg).1.attached = false ∧
    (∀ data, deliver env (createInstance g dbg).1 data = ((createInstance g dbg).1, [])) ∧
    (∀ m, (sendRequest none (createInstance g dbg).1 m).2.2 =
        ReqOutcome.outstanding 1 ∧
      (sendRequest none (createInstance g dbg).1 m).1.pendingRequests = [1] ∧
      (sendRequest none (createInstance g dbg).1 m).1.attached = false ∧
      (∀ data, deliver env (sendRequest none (createInstance g dbg).1 m).1 data =
          ((sendRequest none (createInstance g dbg).1 m).1, []))) := by
  have hst : (createInstance g dbg).1 =
      { debug := dbg, requestIdCounter := 0, pendingRequests := [], listeners := [],
        lastOpenMessageId := JsId.null, lastChangeMessageId := JsId.null,
        attached := false } := by
    unfold createInstance
    rw [h]
    rfl
  have heff : (createInstance g dbg).2 =
      [Effect.errorLog "addEventListener is not available"] := by
    unfold createInstance
    rw [h]
    rfl
  refine ⟨?_, ?_, ?_, ?_⟩
  · rw [heff]
    exact List.mem_singleton.mpr rfl
  · rw [hst]
  · intro data
    rw [hst]
    rfl
  · intro m
    rw [hst]
    exact ⟨rfl, rfl, rfl, fun data => rfl⟩

/-- Witness for the amended C10 at the concrete runtime without
`addEventListener`. -/
theorem failed_construction_logs_and_never_routes_witness :
    gNoListen.hasAddEventListener = false ∧
    (Effect.errorLog "addEventListener is not available" ∈
        (createInstance gNoListen false).2 ∧
     (createInstance gNoListen false).1.attached = false ∧
     (∀ data, deliver envOk (createInstance gNoListen false).1 data =
        ((createInstance gNoListen false).1, [])) ∧
     (∀ m, (sendRequest none (createInstance gNoListen false).1 m).2.2 =
        ReqOutcome.outstanding 1 ∧
      (sendRequest none (createInstance gNoListen false).1 m).1.pendingRequests = [1] ∧
      (sendRequest none (createInstance gNoListen false).1 m).1.attached = false ∧
      (∀ data,
        deliver envOk (sendRequest none (createInstance gNoListen false).1 m).1 data =
          ((sendRequest none (createInstance gNoListen false).1 m).1, [])))) :=
  ⟨rfl, failed_construction_logs_and_never_routes gNoListen false envOk rfl⟩
